import Mathlib

/-!
Shallow embedding of `gbj_statfilter/statfilter.py` (module for statistical
filtering and smoothing, v0.6.0).

Numbers are modelled as exact rationals (`ℚ`).  Python values that flow into
the configuration setters are modelled by `PyVal`, with Python truthiness and
the builtin conversions `float()` / `int()` made explicit; the exceptions the
setters can raise or swallow are modelled by `PyErr`.  Buffers of samples are
`List (Option ℚ)` (a slot is `none` when empty), exactly as the Python lists
of `None` / float.  Logging calls are ignored: they never change control flow.
-/

namespace StatFilter

/-- A Python scalar value as it may be passed to the configuration setters:
`None`, a bool, an int, a float, or a string. -/
inductive PyVal where
  | none
  | bool (b : Bool)
  | int (n : Int)
  | float (q : ℚ)
  | str (s : String)
deriving DecidableEq

/-- The Python exceptions relevant to the embedded code. -/
inductive PyErr where
  | typeError
  | valueError
  | indexError
deriving DecidableEq

instance {ε α : Type} [DecidableEq ε] [DecidableEq α] : DecidableEq (Except ε α) := fun x y =>
  match x, y with
  | .error e, .error f =>
      if h : e = f then .isTrue (by rw [h]) else .isFalse (by simp [h])
  | .error _, .ok _ => .isFalse (by simp)
  | .ok _, .error _ => .isFalse (by simp)
  | .ok a, .ok b =>
      if h : a = b then .isTrue (by rw [h]) else .isFalse (by simp [h])

/-- Python truthiness of a `PyVal` (`bool(v)`): `None`, `False`, numeric zero
and the empty string are falsy. -/
def pyTruthy : PyVal → Bool
  | .none => false
  | .bool b => b
  | .int n => decide (n ≠ 0)
  | .float q => decide (q ≠ 0)
  | .str s => decide (s ≠ "")

/-- Python `x or y`: `x` when truthy, else `y`. -/
def pyOr (v d : PyVal) : PyVal := if pyTruthy v then v else d

/-- Numeric value of a digit list (most significant first). -/
def digitsToNat (l : List Char) : Nat :=
  l.foldl (fun a c => a * 10 + (c.toNat - 48)) 0

/-- Python numeric string parsing, restricted to unsigned decimal integer
literals: any other string is rejected (as Python `float()` / `int()` reject
non-numeric strings with `ValueError`).  The source only ever meets `"0"`-like
and non-numeric strings in the claims, so this restriction is sound there. -/
def strToNat? (s : String) : Option Nat :=
  if s ≠ "" ∧ s.data.all (fun c => c.isDigit) then some (digitsToNat s.data)
  else Option.none

/-- Python builtin `float(v)`: `TypeError` on `None` (and other non-numeric,
non-string objects), `ValueError` on a non-numeric string. -/
def pyFloat : PyVal → Except PyErr ℚ
  | .none => .error .typeError
  | .bool b => .ok (if b then 1 else 0)
  | .int n => .ok (n : ℚ)
  | .float q => .ok q
  | .str s =>
      match strToNat? s with
      | some n => .ok (n : ℚ)
      | Option.none => .error .valueError

/-- Python builtin `int(v)`: like `float` but truncating a float toward
zero. -/
def pyInt : PyVal → Except PyErr Int
  | .none => .error .typeError
  | .bool b => .ok (if b then 1 else 0)
  | .int n => .ok n
  | .float q => .ok (q.num / (q.den : Int))
  | .str s =>
      match strToNat? s with
      | some n => .ok (n : Int)
      | Option.none => .error .valueError

/-! ## ValueFilter -/

/-- `ValueFilter`: acceptable range bounds; a `none` bound is unset
(unbounded).  Field order follows the constructor (`value_max`,
`value_min`). -/
structure ValueFilter where
  value_max : Option ℚ
  value_min : Option ℚ
deriving DecidableEq

/-- `ValueFilter.value_min` setter: `float(value)`, falling back to `None`
(unset) on `TypeError` or `ValueError`. -/
def value_min_set (value : PyVal) : Option ℚ :=
  match pyFloat value with
  | .ok q => some q
  | .error _ => Option.none

/-- `ValueFilter.value_max` setter: identical fallback behaviour. -/
def value_max_set (value : PyVal) : Option ℚ :=
  match pyFloat value with
  | .ok q => some q
  | .error _ => Option.none

/-- `ValueFilter.filter`: `None` passes through; a value above a set
`value_max` or below a set `value_min` is rejected (`None`); otherwise the
value is returned unchanged. -/
def vfilter (f : ValueFilter) (value : Option ℚ) : Option ℚ :=
  match value with
  | Option.none => Option.none
  | some v =>
      if (match f.value_max with | some mx => decide (mx < v) | Option.none => false) then
        Option.none
      else if (match f.value_min with | some mn => decide (v < mn) | Option.none => false) then
        Option.none
      else some v

/-- The claim-side acceptance condition on the lower bound: `value_min` unset
or `v ≥ value_min`. -/
def minOk (f : ValueFilter) (v : ℚ) : Bool :=
  match f.value_min with
  | some mn => decide (mn ≤ v)
  | Option.none => true

/-- The claim-side acceptance condition on the upper bound: `value_max` unset
or `v ≤ value_max`. -/
def maxOk (f : ValueFilter) (v : ℚ) : Bool :=
  match f.value_max with
  | some mx => decide (v ≤ mx)
  | Option.none => true

/-! ## Shared engine behaviour -/

/-- A data buffer of samples; a slot is `none` when empty.  Slot 0 holds the
most recent accepted sample. -/
abbrev Buffer := List (Option ℚ)

/-- `StatFilter.readings`: count of non-empty slots in the data buffer
(`len([i for i in self._buffer if i is not None])`). -/
def readingsCount (b : Buffer) : Nat := (b.filterMap id).length

/-- `StatFilter.result` base step: the input value is filtered when the
engine has a value filter (`if self.filter: value = self.filter.filter(value)`),
otherwise passed through. -/
def applyFilter (fl : Option ValueFilter) (value : Option ℚ) : Option ℚ :=
  match fl with
  | some f => vfilter f value
  | Option.none => value

/-! ## Exponential smoothing -/

/-- `Exponential.FACTOR_DEF`. -/
def FACTOR_DEF : ℚ := 1/2

/-- `Exponential.FACTOR_MIN`. -/
def FACTOR_MIN : ℚ := 0

/-- `Exponential.FACTOR_MAX`. -/
def FACTOR_MAX : ℚ := 1

/-- `Exponential.factor` setter.  `self._factor = abs(float(value or
FACTOR_DEF))`, falling back to `FACTOR_DEF` on `TypeError` only, then
`self._factor = max(min(abs(self._factor), FACTOR_MAX), FACTOR_MIN)`.  A
`ValueError` from `float()` (non-numeric string) is not caught and escapes to
the caller, modelled as `.error .valueError`. -/
def factor_set (value : PyVal) : Except PyErr ℚ :=
  let step : Except PyErr ℚ :=
    match pyFloat (pyOr value (.float FACTOR_DEF)) with
    | .ok q => .ok |q|
    | .error .typeError => .ok FACTOR_DEF
    | .error e => .error e
  step.map (fun f => max (min |f| FACTOR_MAX) FACTOR_MIN)

/-- State of an `Exponential` smoother: the smoothing factor and the single
buffer slot (`self._buffer = [None]` at construction). -/
structure ExpState where
  factor : ℚ
  buffer0 : Option ℚ
deriving DecidableEq

/-- `Exponential.result`: filter the input through the base step; on an
accepted value, either seed the slot (no prior reading) or apply the
recurrence `buffer[0] += factor * (value - buffer[0])`; always return the
slot.  `readings` on the one-slot buffer is 1 exactly when the slot is
occupied. -/
def expResult (fl : Option ValueFilter) (s : ExpState) (value : Option ℚ) :
    Option ℚ × ExpState :=
  match applyFilter fl value with
  | Option.none => (s.buffer0, s)
  | some x =>
      match s.buffer0 with
      | some prev =>
          let nv := prev + s.factor * (x - prev)
          (some nv, ⟨s.factor, some nv⟩)
      | Option.none => (some x, ⟨s.factor, some x⟩)

/-! ## Running statistics -/

/-- `Running.BUFFER_LEN_DEF`. -/
def BUFFER_LEN_DEF : Int := 5

/-- `Running.STAT_TYPE`: the available statistic type abbreviations, in
order. -/
def STAT_TYPE : List String := ["AVG", "MED", "MAX", "MIN"]

/-- Python `str.upper()` on ASCII text, written over the character list. -/
def strUpper (s : String) : String := String.mk (s.data.map Char.toUpper)

/-- `Running.stat_type` setter: uppercase the (string) argument; if it is not
one of `STAT_TYPE`, fall back to `STAT_TYPE[0]` (the default, `"AVG"`); store
the result.  The current value `cur` is never read by the setter. -/
def stat_type_set (cur arg : String) : String :=
  let d := strUpper arg
  if d ∈ STAT_TYPE then d else "AVG"

/-- The in-place shift of `Running._register`: `for i in
range(self.buffer_len - 1, 0, -1): self._buffer[i] = self._buffer[i - 1]`.
Afterwards slot `i` holds the old slot `i - 1` for `i ≥ 1` and slot 0 is
unchanged, i.e. the old head followed by all but the last slot. -/
def shiftRight (b : Buffer) : Buffer :=
  match b with
  | [] => []
  | a :: rest => a :: List.dropLast (a :: rest)

/-- `Running._register` on an already-filtered value known to be accepted:
shift when at least one reading exists, then write the value into slot 0.
The source indexes `self._buffer[0]`, so the buffer is non-empty at every
call site (its length is always at least 1). -/
def registerValue (x : ℚ) (b : Buffer) : Buffer :=
  (if 0 < readingsCount b then shiftRight b else b).set 0 (some x)

/-- `Running._register`: filter the value; if the filtered value is `None`
the buffer is untouched; otherwise store it.  Returns the filtered value and
the new buffer. -/
def running_register (fl : Option ValueFilter) (b : Buffer) (value : Option ℚ) :
    Option ℚ × Buffer :=
  match applyFilter fl value with
  | Option.none => (Option.none, b)
  | some x => (some x, registerValue x b)

/-- The occupied slots of the buffer (`[i for i in self._buffer if i is not
None]`). -/
def occupied (b : Buffer) : List ℚ := b.filterMap id

/-- The statistic type enumeration, for dispatch in `Running.result`. -/
inductive StatType where
  | AVG
  | MED
  | MAX
  | MIN
deriving DecidableEq

/-- The statistic computations `result_min` / `result_max` / `result_avg` /
`result_med` (their bodies, after the `_REGISTER` decorator has registered
the value).  `min`/`max` fold over the occupied slots (Python `min`/`max` of
a list, which the decorator only calls on a non-empty one); `avg` is the mean
of the occupied slots when any exist; `med` returns the raw buffer slot at
index `readings // 2` when any reading exists. -/
def runningStat : StatType → Buffer → Option ℚ
  | .MIN, b =>
      match occupied b with
      | [] => Option.none
      | x :: xs => some (xs.foldl min x)
  | .MAX, b =>
      match occupied b with
      | [] => Option.none
      | x :: xs => some (xs.foldl max x)
  | .AVG, b =>
      match occupied b with
      | [] => Option.none
      | x :: xs => some ((x :: xs).sum / ((x :: xs).length : ℚ))
  | .MED, b =>
      if 0 < readingsCount b then b.getD (readingsCount b / 2) Option.none
      else Option.none

/-- `Running.result` (the `_REGISTER` decorator around the statistic
functions): register the value; if the registered (filtered) result is
`None`, return `None` at once; otherwise, when `readings` is positive,
compute the statistic over the buffer and return it. -/
def running_result (st : StatType) (fl : Option ValueFilter) (b : Buffer)
    (value : Option ℚ) : Option ℚ × Buffer :=
  match running_register fl b value with
  | (Option.none, b2) => (Option.none, b2)
  | (some x, b2) =>
      if 0 < readingsCount b2 then (runningStat st b2, b2) else (some x, b2)

/-! ## Running buffer length -/

/-- One `list.pop(i)`: removes the element at index `i`, failing
(`IndexError`) when the index is out of range. -/
def listPop (i : Nat) (b : Buffer) : Option Buffer :=
  if i < b.length then some (b.eraseIdx i) else Option.none

/-- The shrink loop of the `buffer_len` setter: `for i in range(k):
self._buffer.pop(i)` — pops at indices `0, 1, …, k-1` of the mutating
list. -/
def popSeq : Nat → Nat → Buffer → Option Buffer
  | 0, _, b => some b
  | k + 1, i, b => (listPop i b).bind (popSeq k (i + 1))

/-- The resize step of the `buffer_len` setter: extend with empty slots when
growing, run the pop loop when shrinking, do nothing at equal length. -/
def resizeBuffer (t : Nat) (b : Buffer) : Option Buffer :=
  if b.length < t then some (b ++ List.replicate (t - b.length) Option.none)
  else if t < b.length then popSeq (b.length - t) 0 b
  else some b

/-- `Running.buffer_len` setter: `buffer_len = abs(int(value or
BUFFER_LEN_DEF)) | 1`, then resize the buffer to that length.  On a
`TypeError` from `int()` the handler assigns a dead local and returns, so the
buffer is left unchanged; a `ValueError` (non-numeric string) is not caught;
an out-of-range pop in the shrink loop raises `IndexError`.  There is no
upper clamp on the length. -/
def buffer_len_set (value : PyVal) (b : Buffer) : Except PyErr Buffer :=
  match pyInt (pyOr value (.int BUFFER_LEN_DEF)) with
  | .ok m =>
      match resizeBuffer (m.natAbs ||| 1) b with
      | some b2 => .ok b2
      | Option.none => .error .indexError
  | .error .typeError => .ok b
  | .error e => .error e

/-! ## Helper lemmas -/

theorem readingsCount_set_pos (b : Buffer) (x : ℚ) (hb : b ≠ []) :
    0 < readingsCount (b.set 0 (some x)) := by
  cases b with
  | nil => exact absurd rfl hb
  | cons a rest => simp [readingsCount, List.filterMap_cons]

theorem registerValue_readings_pos (x : ℚ) (b : Buffer) (hb : b ≠ []) :
    0 < readingsCount (registerValue x b) := by
  have h2 : (if 0 < readingsCount b then shiftRight b else b) ≠ [] := by
    split
    · cases b with
      | nil => exact absurd rfl hb
      | cons a rest => simp [shiftRight]
    · exact hb
  exact readingsCount_set_pos _ x h2

theorem resizeBuffer_grow (t : Nat) (b : Buffer) (h : b.length ≤ t) :
    (resizeBuffer t b).map List.length = some t := by
  rcases lt_or_eq_of_le h with hlt | heq
  · simp [resizeBuffer, hlt]
    omega
  · simp [resizeBuffer, heq]

theorem buffer_len_set_int (n : Int) (b : Buffer) :
    buffer_len_set (.int n) b =
      match resizeBuffer ((if n = 0 then BUFFER_LEN_DEF else n).natAbs ||| 1) b with
      | some b2 => .ok b2
      | Option.none => .error .indexError := by
  by_cases hn : n = 0 <;> simp [buffer_len_set, pyOr, pyTruthy, pyInt, hn]

/-! ## Claim theorems -/

/-- C1 (counterexample): with the default Running engine (AVG, length 5, no
filter), after one accepted sample the buffer has a reading, yet a subsequent
`result(None)` call returns `None` — not the previous statistic `5` that the
claim requires whenever `readings() > 0` after registration. -/
theorem running_result_none_counterexample :
    0 < readingsCount
      (running_result .AVG Option.none
        [Option.none, Option.none, Option.none, Option.none, Option.none] (some (5:ℚ))).2 ∧
    (running_result .AVG Option.none
      (running_result .AVG Option.none
        [Option.none, Option.none, Option.none, Option.none, Option.none] (some (5:ℚ))).2
      Option.none).1 = Option.none ∧
    runningStat .AVG
      (running_result .AVG Option.none
        [Option.none, Option.none, Option.none, Option.none, Option.none] (some (5:ℚ))).2
      = some 5 := by
  have hb1 : (running_result .AVG Option.none
      [Option.none, Option.none, Option.none, Option.none, Option.none] (some (5:ℚ))).2 =
      [some 5, Option.none, Option.none, Option.none, Option.none] := rfl
  refine ⟨by rw [hb1]; decide, by rw [hb1]; rfl, ?_⟩
  rw [hb1]
  show runningStat .AVG [some 5, Option.none, Option.none, Option.none, Option.none] = some 5
  norm_num [runningStat, occupied, List.filterMap_cons]

/-- C1 (amended): `Running.result(value)` first registers the value; whenever
the filtered value is `None` (a `None` input or a rejected value) it returns
`None` at once, leaving the buffer untouched, even when `readings() > 0`;
otherwise the value is accepted, `readings() > 0` holds after registration,
and the configured statistic over the registered buffer is computed and
returned. -/
theorem running_result_amended (st : StatType) (fl : Option ValueFilter)
    (b : Buffer) (value : Option ℚ) (hb : b ≠ []) :
    (applyFilter fl value = Option.none →
      running_result st fl b value = (Option.none, b)) ∧
    (∀ x, applyFilter fl value = some x →
      0 < readingsCount (running_result st fl b value).2 ∧
      (running_result st fl b value).1 =
        runningStat st (running_result st fl b value).2 ∧
      (running_result st fl b value).2 = registerValue x b) := by
  constructor
  · intro h
    simp [running_result, running_register, h]
  · intro x hx
    have hpos := registerValue_readings_pos x b hb
    simp [running_result, running_register, hx, hpos]

/-- C1 (witness): a concrete accepted sample into an empty 3-slot buffer. -/
theorem running_result_amended_w :
    0 < readingsCount
      (running_result .AVG Option.none [Option.none, Option.none, Option.none] (some (4:ℚ))).2 ∧
    (running_result .AVG Option.none [Option.none, Option.none, Option.none] (some (4:ℚ))).1 =
      runningStat .AVG
        (running_result .AVG Option.none [Option.none, Option.none, Option.none] (some (4:ℚ))).2 ∧
    (running_result .AVG Option.none [Option.none, Option.none, Option.none] (some (4:ℚ))).2 =
      registerValue 4 [Option.none, Option.none, Option.none] :=
  (running_result_amended .AVG Option.none [Option.none, Option.none, Option.none]
    (some 4) (by decide)).2 4 rfl

/-- C2 (counterexample): the `buffer_len` setter has no upper clamp and input
`0` is falsy: from the default length 5, input `20` yields length `21` (the
claim says `15`) and input `0` yields the default `5` (the claim says `1`). -/
theorem running_buffer_len_counterexample :
    (buffer_len_set (.int 20) (List.replicate 5 Option.none)).map List.length = .ok 21 ∧
    (buffer_len_set (.int 0) (List.replicate 5 Option.none)).map List.length = .ok 5 ∧
    (21 : Nat) ≠ 15 ∧ (5 : Nat) ≠ 1 := by
  decide

/-- C2 (amended): for an integer input `n` the target length is
`|n| OR 1` when `n ≠ 0` and the default `5` when `n = 0` (zero is falsy, so
the default is substituted before conversion); there is no clamp to
`[1, 15]`.  Whenever the target is at least the current length the stored
length becomes exactly the target (in particular, from the default length 5:
input 4 gives 5, input 20 gives 21, input 0 gives 5). -/
theorem running_buffer_len_amended (n : Int) (b : Buffer)
    (h : b.length ≤ (if n = 0 then BUFFER_LEN_DEF else n).natAbs ||| 1) :
    (buffer_len_set (.int n) b).map List.length =
      .ok ((if n = 0 then BUFFER_LEN_DEF else n).natAbs ||| 1) := by
  rw [buffer_len_set_int]
  have h2 := resizeBuffer_grow ((if n = 0 then BUFFER_LEN_DEF else n).natAbs ||| 1) b h
  rcases hres : resizeBuffer ((if n = 0 then BUFFER_LEN_DEF else n).natAbs ||| 1) b with _ | b2
  · rw [hres] at h2
    simp at h2
  · rw [hres] at h2
    simp at h2
    simp [Except.map, h2]

/-- C2 (witness): growing a 3-slot buffer with input 20 yields length 21. -/
theorem running_buffer_len_amended_w :
    (buffer_len_set (.int 20) (List.replicate 3 Option.none)).map List.length =
      .ok ((if (20:Int) = 0 then BUFFER_LEN_DEF else 20).natAbs ||| 1) :=
  running_buffer_len_amended 20 (List.replicate 3 Option.none) (by decide)

/-- C3 (code bug): the `factor` and `buffer_len` setters catch only
`TypeError`, so the `ValueError` raised by `float("abc")` / `int("abc")`
escapes to the caller, contradicting the never-propagate policy; the
`value_min` / `value_max` setters do catch both and fall back to unset. -/
theorem setter_nonnumeric_string_errors :
    factor_set (.str "abc") = .error .valueError ∧
    buffer_len_set (.str "abc") (List.replicate 5 Option.none) = .error .valueError ∧
    value_min_set (.str "abc") = Option.none ∧
    value_max_set (.str "abc") = Option.none := by
  decide

/-- C4 (counterexample): with current `stat_type` `"MED"`, the unknown
argument `"FOO"` sets `"AVG"` (the default), not a no-op retaining
`"MED"`. -/
theorem running_stat_type_counterexample :
    stat_type_set "MED" "FOO" = "AVG" ∧ ("AVG" : String) ≠ "MED" := by
  decide

/-- C4 (amended): for every argument whose uppercased form is not one of the
four defined statistic variants, the setter stores the default `"AVG"` (the
first variant), regardless of the current value. -/
theorem running_stat_type_amended (cur arg : String)
    (h : strUpper arg ∉ STAT_TYPE) : stat_type_set cur arg = "AVG" := by
  simp [stat_type_set, h]

/-- C4 (witness): the concrete unknown argument `"FOO"`. -/
theorem running_stat_type_amended_w : stat_type_set "MED" "FOO" = "AVG" :=
  running_stat_type_amended "MED" "FOO" (by decide)

/-- C5: `filter(None)` returns `None`; `filter(v)` returns `v` unchanged iff
(`value_min` unset or `v ≥ value_min`) and (`value_max` unset or
`v ≤ value_max`); otherwise it returns `None`. -/
theorem valuefilter_filter_iff (f : ValueFilter) (v : ℚ) :
    vfilter f Option.none = Option.none ∧
    (vfilter f (some v) = some v ↔ (minOk f v = true ∧ maxOk f v = true)) ∧
    (¬(minOk f v = true ∧ maxOk f v = true) → vfilter f (some v) = Option.none) := by
  have key : vfilter f (some v) =
      if minOk f v = true ∧ maxOk f v = true then some v else Option.none := by
    rcases hmax : f.value_max with _ | mx <;>
    rcases hmin : f.value_min with _ | mn <;>
    simp only [vfilter, minOk, maxOk, hmax, hmin] <;>
    split_ifs <;>
    simp_all <;>
    linarith
  refine ⟨rfl, ?_, ?_⟩
  · rw [key]
    split_ifs with h
    · simp [h]
    · simp [h]
  · intro h
    rw [key, if_neg h]

/-- C5 (witness): with bounds `[0, 10]` the value 20 is rejected. -/
theorem valuefilter_filter_iff_w :
    vfilter ⟨some 10, some 0⟩ (some (20:ℚ)) = Option.none :=
  (valuefilter_filter_iff ⟨some 10, some 0⟩ 20).2.2 (by decide)

/-- C6: on an accepted input, the Exponential smoother seeds the slot with
the value when empty, and otherwise stores and returns
`prev + factor * (v - prev)`. -/
theorem exponential_result_recurrence (fl : Option ValueFilter) (s : ExpState)
    (value : Option ℚ) (x : ℚ) (hx : applyFilter fl value = some x) :
    (s.buffer0 = Option.none →
      expResult fl s value = (some x, ⟨s.factor, some x⟩)) ∧
    (∀ prev, s.buffer0 = some prev →
      expResult fl s value =
        (some (prev + s.factor * (x - prev)),
         ⟨s.factor, some (prev + s.factor * (x - prev))⟩)) := by
  constructor
  · intro h0
    simp [expResult, hx, h0]
  · intro prev h0
    simp [expResult, hx, h0]

/-- C6 (witness): previous value 3, factor 1/2, input 7 gives 5. -/
theorem exponential_result_recurrence_w :
    expResult Option.none ⟨1/2, some 3⟩ (some (7:ℚ)) = (some 5, ⟨1/2, some 5⟩) := by
  have h := (exponential_result_recurrence Option.none ⟨1/2, some 3⟩ (some 7) 7 rfl).2 3 rfl
  rw [h]
  norm_num

/-- C7: with factor 1 the Exponential result always equals the latest
accepted sample, and the stored slot holds exactly that sample. -/
theorem exponential_factor_one_no_memory (fl : Option ValueFilter) (s : ExpState)
    (value : Option ℚ) (x : ℚ) (hf : s.factor = 1) (hx : applyFilter fl value = some x) :
    (expResult fl s value).1 = some x ∧ (expResult fl s value).2.buffer0 = some x := by
  rcases h0 : s.buffer0 with _ | prev <;> constructor <;>
    simp [expResult, hx, h0, hf]

/-- C7 (witness): previous value 3, factor 1, input 7 gives 7. -/
theorem exponential_factor_one_no_memory_w :
    (expResult Option.none ⟨1, some 3⟩ (some (7:ℚ))).1 = some 7 ∧
    (expResult Option.none ⟨1, some 3⟩ (some (7:ℚ))).2.buffer0 = some 7 :=
  exponential_factor_one_no_memory Option.none ⟨1, some 3⟩ (some 7) 7 rfl rfl

/-- C8: a sample rejected by the range filter leaves the Running buffer, its
`readings` count, and the Exponential state unchanged. -/
theorem rejected_sample_frame (f : ValueFilter) (v : ℚ) (st : StatType)
    (b : Buffer) (s : ExpState) (h : vfilter f (some v) = Option.none) :
    (running_result st (some f) b (some v)).2 = b ∧
    readingsCount (running_result st (some f) b (some v)).2 = readingsCount b ∧
    (expResult (some f) s (some v)).2 = s := by
  refine ⟨?_, ?_, ?_⟩ <;> simp [running_result, running_register, expResult, applyFilter, h]

/-- C8 (witness): bounds `[0, 10]` reject 20, leaving a concrete buffer and
Exponential state untouched. -/
theorem rejected_sample_frame_w :
    (running_result .AVG (some ⟨some 10, some 0⟩) [some 1, Option.none] (some (20:ℚ))).2
      = [some 1, Option.none] ∧
    readingsCount
      (running_result .AVG (some ⟨some 10, some 0⟩) [some 1, Option.none] (some (20:ℚ))).2
      = readingsCount [some 1, Option.none] ∧
    (expResult (some ⟨some 10, some 0⟩) ⟨1/2, some 3⟩ (some (20:ℚ))).2 = ⟨1/2, some 3⟩ :=
  rejected_sample_frame ⟨some 10, some 0⟩ 20 .AVG [some 1, Option.none] ⟨1/2, some 3⟩ (by decide)

/-- C9: with MEDIAN, the value returned for an accepted sample is the buffer
slot at positional index `readings() / 2` of the post-registration buffer —
a chronological position, not a sorted rank. -/
theorem running_result_med_positional (fl : Option ValueFilter) (b : Buffer)
    (value : Option ℚ) (x : ℚ) (hb : b ≠ []) (hx : applyFilter fl value = some x) :
    (running_result .MED fl b value).1 =
      (running_result .MED fl b value).2.getD
        (readingsCount (running_result .MED fl b value).2 / 2) Option.none := by
  have hpos := registerValue_readings_pos x b hb
  simp [running_result, running_register, hx, hpos, runningStat]

/-- C9 (witness): buffer `[1, 2, –]` with accepted input 9 becomes
`[9, 1, 2]`, readings 3, and the result is slot 1 (value 1), not the sorted
median 2. -/
theorem running_result_med_positional_w :
    (running_result .MED Option.none [some 1, some 2, Option.none] (some (9:ℚ))).1 =
      (running_result .MED Option.none [some 1, some 2, Option.none] (some (9:ℚ))).2.getD
        (readingsCount
          (running_result .MED Option.none [some 1, some 2, Option.none] (some (9:ℚ))).2 / 2)
        Option.none :=
  running_result_med_positional Option.none [some 1, some 2, Option.none] (some 9) 9
    (by decide) rfl

/-- C10: every falsy input to the `factor` setter (0, 0.0, None, False, the
empty string) yields the default 0.5, while the truthy string "0" yields
0.0. -/
theorem exponential_factor_falsy_default :
    (∀ v : PyVal, pyTruthy v = false → factor_set v = .ok FACTOR_DEF) ∧
    factor_set (.str "0") = .ok 0 := by
  constructor
  · intro v h
    have h2 : pyOr v (.float FACTOR_DEF) = .float FACTOR_DEF := by simp [pyOr, h]
    unfold factor_set
    rw [h2]
    have habs : |FACTOR_DEF| = FACTOR_DEF := abs_of_nonneg (by norm_num [FACTOR_DEF])
    simp only [pyFloat, Except.map, habs]
    norm_num [FACTOR_DEF, FACTOR_MAX, FACTOR_MIN]
  · have h2 : pyOr (.str "0") (.float FACTOR_DEF) = .str "0" := by decide
    have hpf : pyFloat (.str "0") = .ok 0 := by
      simp [pyFloat, strToNat?, digitsToNat]
    unfold factor_set
    rw [h2, hpf]
    simp [Except.map]
    norm_num [FACTOR_MAX, FACTOR_MIN]

/-- C10 (witness): the falsy input `None` yields the default 0.5. -/
theorem exponential_factor_falsy_default_w : factor_set .none = .ok FACTOR_DEF :=
  exponential_factor_falsy_default.1 .none rfl

end StatFilter
